import Mathlib

/-!
Shallow embedding of `pliers/extractors/models.py` (TFHub / Keras adapter
classes) and proofs about the behaviour of its constructors and `_extract`
methods.  Numeric scalars are modelled as `Rat`; n-dimensional numeric arrays
as a shape list plus a flat data list; Python exceptions as an `Except` error
channel with a small inductive of Python error classes; side effects such as
"the model constructor was invoked" as an explicit effect trace.
-/

namespace Pliers

/-- A numpy n-dimensional array: a shape and the flattened numeric contents.
`ndim` in numpy is the length of the shape. -/
structure NDArray where
  shape : List Nat
  data : List Rat
  deriving Repr, DecidableEq

/-- Models `x.ndim` for a numpy array. -/
def NDArray.ndim (a : NDArray) : Nat := a.shape.length

/-- Python exception classes raised by the code paths modelled here. -/
inductive PyError where
  | valueError (msg : String)
  | keyError (msg : String)
  | indexError (msg : String)
  | typeError (msg : String)
  | attributeError (msg : String)
  deriving Repr, DecidableEq

/-- Whether a raised Python exception is a `ValueError`. -/
def PyError.isValueError : PyError → Bool
  | .valueError _ => true
  | _ => false

/-- The value returned by calling a TFHub model: either a plain tensor or a
dictionary mapping string keys to tensors (a "keyed" output). -/
inductive ModelOut where
  | tensor (a : NDArray)
  | mapping (entries : List (String × NDArray))
  deriving Repr, DecidableEq

/-- Models `out.numpy()` as called in `TFHubExtractor._extract` (models.py line 52):
defined for a tensor, but a Python `dict` has no attribute `numpy`, so a keyed
model output raises `AttributeError` at this point. -/
def numpyCall : ModelOut → Except PyError NDArray
  | .tensor a => .ok a
  | .mapping _ => .error (.attributeError "dict object has no attribute numpy")

/-- Models `arr[key]` for a plain (non-structured) numpy array indexed by a string:
numpy rejects a string index on a numeric array, raising `IndexError`
(not a `ValueError`). Models `out[self.output_key]` in
`TFHubTextEmbeddingExtractor._postprocess` (models.py line 129) after
`_extract` has already converted `out` with `.numpy()`. -/
def ndarrayStrIndex (a : NDArray) (key : String) : Except PyError NDArray :=
  .error (.indexError ("only integers, slices and integer arrays are valid indices, got str key " ++ key ++ " into array of rank " ++ toString a.ndim))

/-- The result object built by `ExtractorResult(out, stim, self, features=features)`:
the output payload, the stimulus it came from, and the feature-name list. -/
structure ExtractorResult (σ ρ : Type) where
  out : ρ
  stim : σ
  features : List String
  deriving Repr, DecidableEq

/-- An image stimulus: a pixel array plus passthrough metadata. -/
structure ImageStim where
  data : NDArray
  onset : Option Rat
  duration : Option Rat
  deriving Repr, DecidableEq

/-- A text stimulus: a string plus passthrough metadata. -/
structure TextStim where
  data : String
  onset : Option Rat
  duration : Option Rat
  deriving Repr, DecidableEq

/-! ### TensorFlowKerasApplicationExtractor construction (models.py 155-202) -/

/-- Python string join: `sep.join(xs)`. -/
def strJoin (sep : String) : List String → String
  | [] => ""
  | [x] => x
  | x :: y :: xs => x ++ sep ++ strJoin sep (y :: xs)

/-- The `model_mapping` dictionary (models.py lines 165-186) restricted to
what construction observes: the key (architecture name) and the required
input shape.  The module and constructor entries are opaque model-runtime
objects; the constructor invocation is tracked on the effect trace instead.
Keys are listed in source (insertion) order. -/
def modelMapping : List (String × List Nat) :=
  [ ("vgg16", [224, 224, 3]),
    ("vgg19", [224, 224, 3]),
    ("resnet50", [224, 224, 3]),
    ("inception_resnetv2", [299, 299, 3]),
    ("inceptionv3", [299, 299, 3]),
    ("xception", [299, 299, 3]),
    ("densenet121", [224, 224, 3]),
    ("densenet169", [224, 224, 3]),
    ("densenet201", [224, 224, 3]),
    ("nasnetlarge", [331, 331, 3]),
    ("nasnetmobile", [224, 224, 3]) ]

/-- The keys `model_mapping.keys()` of the architecture dictionary. -/
def validArchitectures : List String := modelMapping.map Prod.fst

/-- The `ValueError` message of models.py lines 190-192, including the
source's spelling of "arhitectures"; the second format slot is
`"', '".join(model_mapping.keys())`. -/
def unknownArchMsg (architecture : String) : String :=
  "Unknown architecture '" ++ architecture ++ "'. Available arhitectures are '"
    ++ strJoin "', '" validArchitectures ++ "'."

/-- Python string lowercasing `architecture.lower()`, mapping each character
through `Char.toLower` (the architecture names are ASCII, where Python's
`str.lower` and per-character ASCII lowering agree). -/
def pyLower (s : String) : String := String.mk (s.data.map Char.toLower)

/-- Side effects of constructing / running the Keras-application extractor. -/
inductive KerasEffect where
  | loadModel (architecture : String) (weights : String)
  | predict
  deriving Repr, DecidableEq

/-- The fields `TensorFlowKerasApplicationExtractor.__init__` stores on the
instance.  `modelArchitecture`/`modelWeights` stand for the opaque loaded
model handle `model_mapping[self.architecture][1](weights=self.weights)`. -/
structure KerasAppState where
  architecture : String
  weights : String
  num_predictions : Nat
  modelArchitecture : String
  modelWeights : String
  requiredShape : List Nat
  deriving Repr, DecidableEq

/-- Models `TensorFlowKerasApplicationExtractor.__init__` (models.py 155-202).
Defaults in the source are `architecture='inceptionv3'`, `weights=None`,
`num_predictions=5`; `weights=None` is replaced by `'imagenet'`.  The effect
trace records each invocation of a model constructor (which downloads the
weights, line 201); on the unknown-architecture path the `ValueError` is
raised before any model constructor runs, so the trace is empty. -/
def kerasAppInit (architecture : String) (weights : Option String)
    (numPredictions : Nat) : Except PyError KerasAppState × List KerasEffect :=
  let w := weights.getD "imagenet"
  if pyLower architecture ∈ validArchitectures then
    let arch := pyLower architecture
    let shape := ((modelMapping.lookup arch).getD [])
    (.ok { architecture := arch, weights := w, num_predictions := numPredictions,
           modelArchitecture := arch, modelWeights := w, requiredShape := shape },
     [KerasEffect.loadModel arch w])
  else
    (.error (.valueError (unknownArchMsg architecture)), [])

/-! ### TFHubExtractor and subclasses (models.py 18-129) -/

/-- Models `_get_feature_names` (models.py 37-41): the labels if truthy, otherwise
`listify(self._task)`.  A `None` labels argument and an empty list are both
falsy in Python; both are modelled by the empty list. -/
def getFeatureNames (labels : List String) (task : String) : List String :=
  if labels.isEmpty then [task] else labels

/-- Models `TFHubExtractor._extract` (models.py 49-55), generic over the subclass
overrides of `_preprocess` and `_postprocess` and over the loaded model:
computes the feature names, preprocesses the stimulus, calls the model,
converts the output with `.numpy()`, postprocesses, and wraps everything in
an `ExtractorResult` carrying the original stimulus.  `listify` applied to
the (already list-valued) `_get_feature_names()` result is the identity. -/
def tfhubExtract {σ ι ρ : Type} (labels : List String) (task : String)
    (preprocess : σ → ι) (model : ι → ModelOut)
    (postprocess : NDArray → Except PyError ρ) (stim : σ) :
    Except PyError (ExtractorResult σ ρ) := do
  let features := getFeatureNames labels task
  let inp := preprocess stim
  let out ← numpyCall (model inp)
  let out2 ← postprocess out
  return { out := out2, stim := stim, features := features }

/-- The base `_preprocess` (models.py 43-44): returns the raw payload. -/
def tfhubBasePreprocess (stim : ImageStim) : NDArray := stim.data

/-- The base `_postprocess` (models.py 46-47): the identity. -/
def tfhubBasePostprocess (out : NDArray) : Except PyError NDArray := .ok out

/-! #### Image subclass -/

/-- A TensorFlow tensor: a dtype tag plus the array contents, the value a
successful `tf.convert_to_tensor` / `tf.expand_dims` pipeline would
produce. -/
inductive DType where
  | float32
  | other
  deriving Repr, DecidableEq

structure TFTensor where
  dtype : DType
  arr : NDArray
  deriving Repr, DecidableEq

/-- Models the call `tf.convert_to_tensor(x, type=tf.float32)` at models.py
84-85.  The keyword `type` is not a parameter of `tf.convert_to_tensor` —
the dtype parameter is named `dtype` (the signature is
`(value, dtype=None, dtype_hint=None, name=None)`) — so Python rejects the
unexpected keyword argument with a `TypeError` on every call and no tensor
is ever produced. -/
def convertToTensorTypeKw (a : NDArray) : Except PyError TFTensor :=
  .error (.typeError
    ("convert_to_tensor() got an unexpected keyword argument type; array rank "
      ++ toString a.ndim))

/-- Models `tf.expand_dims(x, axis=0)`: prepends a batch dimension of size 1. -/
def expandDims0 (t : TFTensor) : TFTensor :=
  { t with arr := { shape := 1 :: t.arr.shape, data := t.arr.data } }

/-- Models `x / 255.0` on a numpy array: elementwise division. -/
def rescale255 (a : NDArray) : NDArray :=
  { shape := a.shape, data := a.data.map (fun v => v / 255) }

/-- The possibly-resized input array of `TFHubImageExtractor._preprocess`
(models.py 77-81): when `reshape_input` is set, the data of the stimulus
resized by the external `ImageResizingFilter(size=self.reshape_input[:-1])`
collaborator (passed in as a function from target size and stimulus to
resized stimulus), and otherwise the raw stimulus data. -/
def imageResizedInput (reshape_input : Option (List Nat))
    (resizeTransform : List Nat → ImageStim → ImageStim) (stim : ImageStim) :
    NDArray :=
  match reshape_input with
  | some shape => (resizeTransform shape.dropLast stim).data
  | none => stim.data

/-- Models `TFHubImageExtractor._preprocess` (models.py 76-87): optional
resize, optional rescale of the pixel values by 255, then the
`tf.convert_to_tensor(x, type=tf.float32)` call — which raises `TypeError`
for the invalid keyword `type` (see `convertToTensorTypeKw`), so the
`tf.expand_dims(x, axis=0)` on line 86 is never reached and the method
never returns a tensor. -/
def tfhubImagePreprocess (rescale_rgb : Bool) (reshape_input : Option (List Nat))
    (resizeTransform : List Nat → ImageStim → ImageStim) (stim : ImageStim) :
    Except PyError TFTensor := do
  let x := imageResizedInput reshape_input resizeTransform stim
  let x := if rescale_rgb then rescale255 x else x
  let t ← convertToTensorTypeKw x
  return expandDims0 t

/-! #### Text subclass -/

/-- The value `_preprocess` hands to the model in `TFHubTextExtractor`
(models.py 112-117): either the raw batch-of-one list of strings, or the
output of the preprocessor model (of opaque type `ι`). -/
inductive TextModelIn (ι : Type) where
  | raw (xs : List String)
  | pre (t : ι)
  deriving Repr, DecidableEq

/-- Models `TFHubTextExtractor._preprocess` (models.py 112-117): wraps the single
string as a batch of one (`listify`); when a preprocessor model reference is
configured, loads it via `hub.KerasLayer` (modelled by the `hub` environment
mapping a URL to the loaded model's function) and applies it first. -/
def tfhubTextPreprocess {ι : Type} (hub : String → List String → ι)
    (preprocessor_url_or_path : Option String) (stim : TextStim) :
    TextModelIn ι :=
  let x := [stim.data]
  match preprocessor_url_or_path with
  | none => .raw x
  | some url => .pre (hub url x)

/-- Models `TFHubTextEmbeddingExtractor._postprocess` (models.py 128-129):
`out[self.output_key]`.  By the time `_postprocess` runs, `_extract` (line
52) has already called `.numpy()` on the model output, so `out` here is a
plain numpy array and the string index raises (see `ndarrayStrIndex`);
a dictionary-shaped model output never reaches this method because `.numpy()`
on a dict raises `AttributeError` first. -/
def tfhubTextEmbedPostprocess (output_key : String) (out : NDArray) :
    Except PyError NDArray :=
  ndarrayStrIndex out output_key

/-! ### Constructors of the TFHub classes (models.py 30-35, 71-74, 108-110, 124-126) -/

/-- The loaded model handle `hub.KerasLayer(url_or_path)`: records which URL
was loaded. -/
structure ModelHandle where
  url : String
  deriving Repr, DecidableEq

/-- Instance state set by `TFHubExtractor.__init__`. -/
structure TFHubBaseState where
  model : ModelHandle
  labels : List String
  task : Option String
  deriving Repr, DecidableEq

/-- Models `TFHubExtractor.__init__` called with an explicit positional-argument
list (models.py 30-35): `url_or_path` is a required positional argument, so
a call that passes no arguments raises `TypeError` before the body runs; a
call that passes the URL loads the model into `self.model`. -/
def tfhubInitArgs (args : List String) : Except PyError TFHubBaseState :=
  match args with
  | [] => .error (.typeError "__init__() missing 1 required positional argument: url_or_path")
  | url :: _ => .ok { model := { url := url }, labels := [], task := none }

/-- Instance state of `TFHubImageExtractor`. -/
structure TFHubImageState where
  base : TFHubBaseState
  rescale_rgb : Bool
  reshape_input : Option (List Nat)
  deriving Repr, DecidableEq

/-- Models `TFHubImageExtractor.__init__` (models.py 71-74): its signature is
`(self, rescale_rgb=True, reshape_input=None)` — it accepts no model
identifier — and its first statement is `super().__init__()` with no
arguments, which fails because the parent requires `url_or_path`. -/
def tfhubImageInit (rescale_rgb : Bool) (reshape_input : Option (List Nat)) :
    Except PyError TFHubImageState := do
  let base ← tfhubInitArgs []
  return { base := base, rescale_rgb := rescale_rgb, reshape_input := reshape_input }

/-- Instance state of `TFHubTextExtractor`. -/
structure TFHubTextState where
  base : TFHubBaseState
  preprocessor_url_or_path : Option String
  deriving Repr, DecidableEq

/-- Models `TFHubTextExtractor.__init__` (models.py 108-110): signature
`(self, preprocessor_url_or_path=None)`; calls `super().__init__()` with no
arguments, which fails because the parent requires `url_or_path`. -/
def tfhubTextInit (preprocessor_url_or_path : Option String) :
    Except PyError TFHubTextState := do
  let base ← tfhubInitArgs []
  return { base := base, preprocessor_url_or_path := preprocessor_url_or_path }

/-- Instance state of `TFHubTextEmbeddingExtractor`. -/
structure TFHubTextEmbedState where
  text : TFHubTextState
  output_key : String
  deriving Repr, DecidableEq

/-- Models `TFHubTextEmbeddingExtractor.__init__` (models.py 124-126): signature
`(self, output_key='default')`; calls `super().__init__()` with no
arguments (so the text-extractor default `preprocessor_url_or_path=None`
applies), which in turn fails in the grandparent constructor. -/
def tfhubTextEmbedInit (output_key : String) : Except PyError TFHubTextEmbedState := do
  let text ← tfhubTextInit none
  return { text := text, output_key := output_key }

/-! ### TensorFlowKerasApplicationExtractor._extract (models.py 204-229) -/

/-- The external model-runtime pieces `_extract` delegates to: the
architecture module's `preprocess_input` normalisation, the model's
`predict`, and the module's `decode_predictions`, which yields one sub-list
per batch sample of `(ID, human-readable label, probability)` triples. -/
structure KerasModelRuntime where
  preprocess_input : NDArray → NDArray
  predict : NDArray → NDArray
  decode_predictions : NDArray → Nat → List (List (String × String × Rat))

/-- Models `x[None]` on a numpy array: prepend a batch dimension of size 1. -/
def ndarrayExpand0 (a : NDArray) : NDArray :=
  { shape := 1 :: a.shape, data := a.data }

/-- The prediction-and-decode pipeline inside
`TensorFlowKerasApplicationExtractor._extract` (models.py 209-222), run once
the rank check has passed: resize when the shape differs from the required
shape (via the external resizing filter, passed in), add the batch
dimension, apply the architecture's `preprocess_input` normalisation, run
`predict`, and decode the top `num_predictions` triples — one sub-list of
`(ID, human-readable label, probability)` triples per batch sample. -/
def kerasDecoded (rt : KerasModelRuntime)
    (resizeTransform : List Nat → ImageStim → ImageStim)
    (requiredShape : List Nat) (numPredictions : Nat) (stim : ImageStim) :
    List (List (String × String × Rat)) :=
  let x := stim.data
  let x := if x.shape ≠ requiredShape then (resizeTransform requiredShape.dropLast stim).data else x
  let x := ndarrayExpand0 x
  let x := rt.preprocess_input x
  let preds := rt.predict x
  rt.decode_predictions preds numPredictions

/-- Models `TensorFlowKerasApplicationExtractor._extract` (models.py 204-229).
Checks the rank, runs the prediction-and-decode pipeline (`kerasDecoded`;
the `predict` call is recorded on the effect trace), unwraps the single
batch sample (`decoded[0]`, an `IndexError` when the decoded list is empty),
and returns one row of probabilities labelled by the human-readable
labels. -/
def kerasExtract (rt : KerasModelRuntime)
    (resizeTransform : List Nat → ImageStim → ImageStim)
    (requiredShape : List Nat) (numPredictions : Nat) (stim : ImageStim) :
    Except PyError (ExtractorResult ImageStim (List (List Rat))) × List KerasEffect :=
  let x := stim.data
  if x.ndim ≠ 3 then
    (.error (.valueError ("Stim data must have rank 3 but got rank " ++ toString x.ndim)), [])
  else
    match kerasDecoded rt resizeTransform requiredShape numPredictions stim with
    | [] => (.error (.indexError "list index out of range"), [KerasEffect.predict])
    | decoded :: _ =>
      let values := decoded.map (fun t => t.2.2)
      let features := decoded.map (fun t => t.2.1)
      (.ok { out := [values], stim := stim, features := features }, [KerasEffect.predict])

/-! ### Spec-side definition for the two-stage text-pipeline refinement -/

/-- Follows the spec's words for the manual side of the two-stage
text-pipeline equivalence: "manually invoking the preprocessor on the
batch-of-one wrapped string and feeding its output to the main model
outside the adapter", with the resulting numbers read off the model output
(`.numpy()`).  This definition is the spec's description, to be compared
with the adapter pipeline embedded from the source. -/
def specManualTwoStage {ι : Type} (hub : String → List String → ι)
    (model : TextModelIn ι → ModelOut) (preprocessorUrl : String)
    (s : String) : Except PyError NDArray :=
  numpyCall (model (.pre (hub preprocessorUrl [s])))

/-! ## Theorems -/

/-- Every member of a joined list occurs as a contiguous substring of the
join, exhibited by an explicit decomposition. -/
theorem strJoin_substring (sep name : String) :
    ∀ {l : List String}, name ∈ l → ∃ p q, strJoin sep l = p ++ name ++ q
  | [], h => absurd h (List.not_mem_nil name)
  | [x], h => by
      rcases List.mem_singleton.mp h with rfl
      exact ⟨"", "", by simp [strJoin]⟩
  | x :: y :: xs, h => by
      rcases List.mem_cons.mp h with rfl | h2
      · exact ⟨"", sep ++ strJoin sep (y :: xs), by
          simp [strJoin, String.append_assoc]⟩
      · obtain ⟨p, q, hq⟩ := strJoin_substring sep name h2
        exact ⟨x ++ sep ++ p, q, by
          simp [strJoin, hq, String.append_assoc]⟩

/-- C1: constructing `TensorFlowKerasApplicationExtractor` with an
architecture name outside the enumerated set yields a `ValueError` whose
message lists every valid architecture name, and the effect trace is empty:
no model constructor is invoked (so no weights are loaded) before the error
is raised. -/
theorem c1_unknown_architecture_valueerror (architecture : String)
    (weights : Option String) (numPredictions : Nat)
    (h : pyLower architecture ∉ validArchitectures) :
    kerasAppInit architecture weights numPredictions =
      (.error (.valueError (unknownArchMsg architecture)), []) ∧
    ∀ name ∈ validArchitectures, ∃ p q,
      unknownArchMsg architecture = p ++ name ++ q := by
  refine ⟨by simp [kerasAppInit, h], ?_⟩
  intro name hn
  obtain ⟨p, q, hj⟩ := strJoin_substring "', '" name hn
  refine ⟨"Unknown architecture '" ++ architecture
    ++ "'. Available arhitectures are '" ++ p, q ++ "'.", ?_⟩
  simp [unknownArchMsg, hj, String.append_assoc]

/-- Witness for C1 at the concrete invalid architecture name "foo". -/
theorem c1_witness :
    pyLower "foo" ∉ validArchitectures ∧
    (kerasAppInit "foo" none 5 =
      (.error (.valueError (unknownArchMsg "foo")), []) ∧
     ∀ name ∈ validArchitectures, ∃ p q,
       unknownArchMsg "foo" = p ++ name ++ q) :=
  ⟨by decide, c1_unknown_architecture_valueerror "foo" none 5 (by decide)⟩

/-- C10: the architecture name is matched case-insensitively: whenever the
lowercased name is in the enumerated set, construction succeeds (no
unknown-architecture `ValueError`) and stores the lowercase form as the
instance's `architecture` attribute. -/
theorem c10_case_insensitive_architecture (architecture : String)
    (weights : Option String) (numPredictions : Nat)
    (h : pyLower architecture ∈ validArchitectures) :
    ∃ st, (kerasAppInit architecture weights numPredictions).1 = .ok st ∧
      st.architecture = pyLower architecture := by
  simp only [kerasAppInit, if_pos h]
  exact ⟨_, rfl, rfl⟩

/-- C4: when the stimulus array does not have exactly 3 dimensions, the
Keras-application `_extract` raises a `ValueError` whose message states the
actual rank, and the effect trace is empty: `predict` is never run. -/
theorem c4_rank_check_valueerror (rt : KerasModelRuntime)
    (resize : List Nat → ImageStim → ImageStim) (required : List Nat)
    (n : Nat) (stim : ImageStim) (h : stim.data.ndim ≠ 3) :
    kerasExtract rt resize required n stim =
      (.error (.valueError ("Stim data must have rank 3 but got rank "
        ++ toString stim.data.ndim)), []) ∧
    KerasEffect.predict ∉ (kerasExtract rt resize required n stim).2 := by
  have he : kerasExtract rt resize required n stim =
      (.error (.valueError ("Stim data must have rank 3 but got rank "
        ++ toString stim.data.ndim)), []) := by
    simp [kerasExtract, h]
  exact ⟨he, by simp [he]⟩

/-- Witness for C4 at a concrete rank-2 stimulus. -/
theorem c4_witness :
    ({ data := { shape := [2, 2], data := [1, 2, 3, 4] }, onset := none,
       duration := none } : ImageStim).data.ndim ≠ 3 ∧
    kerasExtract
      { preprocess_input := id, predict := id, decode_predictions := fun _ _ => [] }
      (fun _ s => s) [224, 224, 3] 5
      { data := { shape := [2, 2], data := [1, 2, 3, 4] }, onset := none,
        duration := none } =
      (.error (.valueError "Stim data must have rank 3 but got rank 2"), []) :=
  ⟨by decide,
   (c4_rank_check_valueerror
      { preprocess_input := id, predict := id, decode_predictions := fun _ _ => [] }
      (fun _ s => s) [224, 224, 3] 5
      { data := { shape := [2, 2], data := [1, 2, 3, 4] }, onset := none,
        duration := none } (by decide)).1⟩

/-- C5: on a rank-3 stimulus for which the decode step yields a (non-empty)
batch, the Keras-application `_extract` returns a result with exactly one
row; the feature names are the human-readable labels and the values the
probabilities of the first batch sample's decoded triples, with the i-th
value decoded alongside the i-th feature name. -/
theorem c5_single_row_labels_probabilities (rt : KerasModelRuntime)
    (resize : List Nat → ImageStim → ImageStim) (required : List Nat)
    (n : Nat) (stim : ImageStim) (d : List (String × String × Rat))
    (ds : List (List (String × String × Rat)))
    (h3 : stim.data.ndim = 3)
    (hd : kerasDecoded rt resize required n stim = d :: ds) :
    (kerasExtract rt resize required n stim).1 =
      .ok { out := [d.map (fun t => t.2.2)], stim := stim,
            features := d.map (fun t => t.2.1) } ∧
    [d.map (fun t => t.2.2)].length = 1 ∧
    (∀ i : Nat, (d.map (fun t => t.2.2))[i]? = (d[i]?).map (fun t => t.2.2) ∧
                (d.map (fun t => t.2.1))[i]? = (d[i]?).map (fun t => t.2.1)) := by
  refine ⟨?_, rfl, fun i => ⟨by simp, by simp⟩⟩
  simp [kerasExtract, h3, hd]

/-- Witness for C5 at a concrete rank-3 stimulus and a runtime that decodes
a single (id, label, probability) triple. -/
theorem c5_witness :
    ({ data := { shape := [1, 1, 3], data := [1, 2, 3] }, onset := none,
       duration := none } : ImageStim).data.ndim = 3 ∧
    kerasDecoded
      { preprocess_input := id, predict := id,
        decode_predictions := fun _ _ => [[("n01", "apple", 9 / 10)]] }
      (fun _ s => s) [1, 1, 3] 1
      { data := { shape := [1, 1, 3], data := [1, 2, 3] }, onset := none,
        duration := none } = [("n01", "apple", 9 / 10)] :: [] ∧
    (kerasExtract
      { preprocess_input := id, predict := id,
        decode_predictions := fun _ _ => [[("n01", "apple", 9 / 10)]] }
      (fun _ s => s) [1, 1, 3] 1
      { data := { shape := [1, 1, 3], data := [1, 2, 3] }, onset := none,
        duration := none }).1 =
      .ok { out := [[(9 : Rat) / 10]],
            stim := { data := { shape := [1, 1, 3], data := [1, 2, 3] },
                      onset := none, duration := none },
            features := ["apple"] } :=
  ⟨rfl, rfl,
   (c5_single_row_labels_probabilities
      { preprocess_input := id, predict := id,
        decode_predictions := fun _ _ => [[("n01", "apple", 9 / 10)]] }
      (fun _ s => s) [1, 1, 3] 1
      { data := { shape := [1, 1, 3], data := [1, 2, 3] }, onset := none,
        duration := none } [("n01", "apple", 9 / 10)] [] rfl rfl).1⟩

/-- C3 fails on the generic adapter: a base extractor with one label and a
model returning a three-element tensor returns a result (no error) whose
row has three values but only one feature name.  The base `_extract` attaches
the model output without any length check against the feature names. -/
theorem c3_counterexample :
    tfhubExtract ["a"] "embedding" tfhubBasePreprocess
      (fun _ => ModelOut.tensor { shape := [3], data := [1, 2, 3] })
      tfhubBasePostprocess
      { data := { shape := [3], data := [1, 2, 3] }, onset := none,
        duration := none } =
      .ok { out := { shape := [3], data := [1, 2, 3] },
            stim := { data := { shape := [3], data := [1, 2, 3] },
                      onset := none, duration := none },
            features := ["a"] } ∧
    ({ shape := [3], data := [1, 2, 3] } : NDArray).data.length ≠
      (["a"] : List String).length :=
  ⟨rfl, by decide⟩

/-- C3 (amended): in the fixed-architecture adapter every value row of a
successfully returned result has exactly as many values as there are feature
names; the generic base path carries no such guarantee. -/
theorem c3_keras_values_match_features (rt : KerasModelRuntime)
    (resize : List Nat → ImageStim → ImageStim) (required : List Nat)
    (n : Nat) (stim : ImageStim)
    (res : ExtractorResult ImageStim (List (List Rat)))
    (h : (kerasExtract rt resize required n stim).1 = .ok res) :
    ∀ row ∈ res.out, row.length = res.features.length := by
  by_cases h3 : stim.data.ndim = 3
  · rcases hdec : kerasDecoded rt resize required n stim with _ | ⟨d, ds⟩
    · simp [kerasExtract, h3, hdec] at h
    · simp [kerasExtract, h3, hdec] at h
      intro row hrow
      rw [← h] at hrow ⊢
      simp at hrow
      simp [hrow]
  · simp [kerasExtract, h3] at h

/-- Witness for C3's amended theorem: at a concrete successful extraction,
the single returned row has as many values as the one feature name. -/
theorem c3_witness :
    ([(9 : Rat) / 10] : List Rat).length = (["apple"] : List String).length :=
  c3_keras_values_match_features
    { preprocess_input := id, predict := id,
      decode_predictions := fun _ _ => [[("n01", "apple", 9 / 10)]] }
    (fun _ s => s) [1, 1, 3] 1
    { data := { shape := [1, 1, 3], data := [1, 2, 3] }, onset := none,
      duration := none }
    { out := [[(9 : Rat) / 10]],
      stim := { data := { shape := [1, 1, 3], data := [1, 2, 3] },
                onset := none, duration := none },
      features := ["apple"] }
    rfl [(9 : Rat) / 10] (List.mem_singleton.mpr rfl)

/-- Witness for C10 at the concrete mixed-case name "InceptionV3". -/
theorem c10_witness :
    pyLower "InceptionV3" ∈ validArchitectures ∧
    ∃ st, (kerasAppInit "InceptionV3" none 5).1 = .ok st ∧
      st.architecture = pyLower "InceptionV3" :=
  ⟨by decide, c10_case_insensitive_architecture "InceptionV3" none 5 (by decide)⟩

/-- C2 (code bug): in the source, the text adapter subtype that selects a
named output key never raises a `ValueError` on either path.  A keyed
(dictionary) model output — whether or not it contains the requested key —
crashes earlier, in `_extract`, with `AttributeError` when `.numpy()` is
called on the dict; a plain tensor output reaches `_postprocess`, whose
string index into a plain numpy array raises an `IndexError`.  The
repository's own tests require `ValueError`s with messages "Check which
keys" and "not a dictionary" on these paths; neither exists in the code. -/
theorem c2_codebug_not_valueerror :
    (∃ e, tfhubExtract [] "embedding"
        (tfhubTextPreprocess (fun (_ : String) (xs : List String) => xs) none)
        (fun _ => ModelOut.mapping
          [("sequence_output", { shape := [1], data := [0] })])
        (tfhubTextEmbedPostprocess "key")
        { data := "hello", onset := none, duration := none } = .error e ∧
      e.isValueError = false) ∧
    (∃ e, tfhubExtract [] "embedding"
        (tfhubTextPreprocess (fun (_ : String) (xs : List String) => xs) none)
        (fun _ => ModelOut.tensor { shape := [2], data := [0, 1] })
        (tfhubTextEmbedPostprocess "key")
        { data := "hello", onset := none, duration := none } = .error e ∧
      e.isValueError = false) :=
  ⟨⟨_, rfl, rfl⟩, ⟨_, rfl, rfl⟩⟩

/-- C6 (code bug): `TFHubImageExtractor._preprocess` never produces a
tensor.  The call `tf.convert_to_tensor(x, type=tf.float32)` at models.py
84-85 uses the invalid keyword `type` (the parameter is named `dtype`), so
every invocation — for any rescaling flag, any reshape setting, any
resizer, and any stimulus — raises `TypeError` and neither the dtype
conversion nor the batch-dimension step is ever performed; in particular
the concrete three-pixel image with values 0, 255, 51 fails this way. -/
theorem c6_codebug_convert_typeerror :
    (∀ (rescale_rgb : Bool) (reshape_input : Option (List Nat))
        (resize : List Nat → ImageStim → ImageStim) (stim : ImageStim),
      ∃ msg, tfhubImagePreprocess rescale_rgb reshape_input resize stim =
          .error (.typeError msg) ∧
        ∀ t : TFTensor, tfhubImagePreprocess rescale_rgb reshape_input resize stim ≠ .ok t) ∧
    tfhubImagePreprocess true none (fun _ s => s)
      { data := { shape := [3], data := [0, 255, 51] }, onset := none,
        duration := none } =
      .error (.typeError
        "convert_to_tensor() got an unexpected keyword argument type; array rank 1") :=
  ⟨fun _ _ _ _ => ⟨_, rfl, fun _ h => Except.noConfusion h⟩, rfl⟩

/-- C7: for any input string, the text adapter configured with a
preprocessor model produces exactly the numeric output of manually invoking
the preprocessor on the batch-of-one wrapped string and feeding its output
to the main model outside the adapter. -/
theorem c7_two_stage_equals_manual {ι : Type} (hub : String → List String → ι)
    (model : TextModelIn ι → ModelOut) (url : String)
    (labels : List String) (task : String) (stim : TextStim) :
    Except.map (fun r => r.out)
      (tfhubExtract labels task (tfhubTextPreprocess hub (some url)) model
        tfhubBasePostprocess stim) =
      specManualTwoStage hub model url stim.data := by
  simp only [tfhubExtract, tfhubTextPreprocess, specManualTwoStage,
             tfhubBasePostprocess]
  rcases hm : model (TextModelIn.pre (hub url [stim.data])) with a | es <;>
    simp [hm, numpyCall, Bind.bind, Except.bind, Except.map, pure, Except.pure]

/-- C8 (code bug): the generic adapter's constructor accepts a model
identifier and loads it into the model handle, but every specialised
subtype constructor in this module (image, text, text-embedding) accepts no
model identifier and calls the parent constructor with no arguments, so
constructing any of them raises `TypeError` — the required `url_or_path`
argument is missing — and no model is ever loaded. -/
theorem c8_subclass_constructors_fail :
    (∀ url : String, tfhubInitArgs [url] =
      .ok { model := { url := url }, labels := [], task := none }) ∧
    (∀ (b : Bool) (r : Option (List Nat)), tfhubImageInit b r =
      .error (.typeError
        "__init__() missing 1 required positional argument: url_or_path")) ∧
    (∀ p : Option String, tfhubTextInit p =
      .error (.typeError
        "__init__() missing 1 required positional argument: url_or_path")) ∧
    (∀ k : String, tfhubTextEmbedInit k =
      .error (.typeError
        "__init__() missing 1 required positional argument: url_or_path")) :=
  ⟨fun _ => rfl, fun _ _ => rfl, fun _ => rfl, fun _ => rfl⟩

/-- C9: whenever extraction succeeds, the stimulus object attached to the
returned result is the input stimulus itself — in the generic `_extract`
for any stimulus type and in the Keras-application `_extract`, where the
passthrough onset and duration fields therefore also coincide with the
input's. -/
theorem c9_stimulus_passthrough :
    (∀ {σ ι ρ : Type} (labels : List String) (task : String)
        (preprocess : σ → ι) (model : ι → ModelOut)
        (postprocess : NDArray → Except PyError ρ) (stim : σ)
        (res : ExtractorResult σ ρ),
      tfhubExtract labels task preprocess model postprocess stim = .ok res →
      res.stim = stim) ∧
    (∀ (rt : KerasModelRuntime) (resize : List Nat → ImageStim → ImageStim)
        (required : List Nat) (n : Nat) (stim : ImageStim)
        (res : ExtractorResult ImageStim (List (List Rat))),
      (kerasExtract rt resize required n stim).1 = .ok res →
      res.stim = stim ∧ res.stim.onset = stim.onset ∧
        res.stim.duration = stim.duration) := by
  constructor
  · intro σ ι ρ labels task preprocess model postprocess stim res h
    simp only [tfhubExtract] at h
    rcases hn : numpyCall (model (preprocess stim)) with e | a <;> rw [hn] at h <;>
      simp only [Bind.bind, Except.bind] at h
    · exact Except.noConfusion h
    · rcases hp : postprocess a with e | b <;> rw [hp] at h <;>
        simp only [Functor.map, Except.map] at h
      · exact Except.noConfusion h
      · injection h with h2
        rw [← h2]
  · intro rt resize required n stim res h
    by_cases h3 : stim.data.ndim = 3
    · rcases hdec : kerasDecoded rt resize required n stim with _ | ⟨d, ds⟩
      · simp [kerasExtract, h3, hdec] at h
      · simp [kerasExtract, h3, hdec] at h
        rw [← h]
        exact ⟨rfl, rfl, rfl⟩
    · simp [kerasExtract, h3] at h

/-- Witness for C9: both parts applied at concrete successful extractions. -/
theorem c9_witness :
    ({ out := { shape := [1], data := [7] },
       stim := ({ data := { shape := [1], data := [7] }, onset := some 42,
                  duration := some 1 } : ImageStim),
       features := ["t"] } :
        ExtractorResult ImageStim NDArray).stim =
      { data := { shape := [1], data := [7] }, onset := some 42,
        duration := some 1 } ∧
    (({ out := [[(9 : Rat) / 10]],
        stim := ({ data := { shape := [1, 1, 3], data := [1, 2, 3] },
                   onset := some 42, duration := some 1 } : ImageStim),
        features := ["apple"] } :
         ExtractorResult ImageStim (List (List Rat))).stim =
       { data := { shape := [1, 1, 3], data := [1, 2, 3] },
         onset := some 42, duration := some 1 } ∧
     ({ out := [[(9 : Rat) / 10]],
        stim := ({ data := { shape := [1, 1, 3], data := [1, 2, 3] },
                   onset := some 42, duration := some 1 } : ImageStim),
        features := ["apple"] } :
         ExtractorResult ImageStim (List (List Rat))).stim.onset =
       (some 42 : Option Rat) ∧
     ({ out := [[(9 : Rat) / 10]],
        stim := ({ data := { shape := [1, 1, 3], data := [1, 2, 3] },
                   onset := some 42, duration := some 1 } : ImageStim),
        features := ["apple"] } :
         ExtractorResult ImageStim (List (List Rat))).stim.duration =
       (some 1 : Option Rat)) :=
  ⟨c9_stimulus_passthrough.1 [] "t" tfhubBasePreprocess
     (fun a => ModelOut.tensor a) tfhubBasePostprocess
     { data := { shape := [1], data := [7] }, onset := some 42,
       duration := some 1 }
     { out := { shape := [1], data := [7] },
       stim := { data := { shape := [1], data := [7] }, onset := some 42,
                 duration := some 1 },
       features := ["t"] } rfl,
   c9_stimulus_passthrough.2
     { preprocess_input := id, predict := id,
       decode_predictions := fun _ _ => [[("n01", "apple", 9 / 10)]] }
     (fun _ s => s) [1, 1, 3] 1
     { data := { shape := [1, 1, 3], data := [1, 2, 3] }, onset := some 42,
       duration := some 1 }
     { out := [[(9 : Rat) / 10]],
       stim := { data := { shape := [1, 1, 3], data := [1, 2, 3] },
                 onset := some 42, duration := some 1 },
       features := ["apple"] } rfl⟩

end Pliers
